import Mathlib

/-!
Shallow embedding of the navigation/selection state engine in
`src/app/models.rs` of the jwt-ui repository: `StatefulList`,
`StatefulTable`, `TabsState` and `ScrollableTxt`, together with the
`Scrollable` trait's `handle_scroll` default method, and theorems checking
the specification's claims about them.

Conventions of the embedding:
- Rust `usize` values (indices, lengths, magnitudes) are modelled as `Nat`;
  `usize::saturating_sub` is exactly `Nat` truncated subtraction.
- The ratatui `ListState` / `TableState` wrappers are modelled by their only
  observable used in this file, `selected : Option Nat`.
- `ScrollableTxt.offset` is a `u16` in the source; the source casts `usize`
  quantities into `u16` with `as u16` (truncation, i.e. `% 2^16`) and adds
  with `+=` (wrapping `% 2^16` in release builds).  Those casts are kept
  explicitly as `% U16`.
- Unchecked machine additions can panic in debug builds; the
  `..._checked` variants model that debug semantics with `Option`
  (`none` = overflow panic), mirroring the source expression for expression.
-/

namespace JwtUi

/-- Number of values of `usize` (64-bit). -/
def USIZE : Nat := 2 ^ 64

/-- Number of values of `u16`. -/
def U16 : Nat := 2 ^ 16

/-- Debug-semantics machine addition at width `w`: `none` models the
overflow panic of a checked build. -/
def checkedAdd (w a b : Nat) : Option Nat :=
  if a + b < w then some (a + b) else none

/-! ## StatefulList (src/app/models.rs lines 28-78) -/

/-- `StatefulList<T>`: ratatui `ListState` (observably its
`selected : Option<usize>`) plus `items : Vec<T>`. -/
structure StatefulList (T : Type) where
  selected : Option Nat
  items : List T
deriving Repr, DecidableEq

/-- `StatefulList::new()`. -/
def StatefulList.new (T : Type) : StatefulList T :=
  { selected := none, items := [] }

/-- `StatefulList::with_items(items)`: selects `Some(0)` iff `items` is
non-empty. -/
def StatefulList.with_items {T : Type} (items : List T) : StatefulList T :=
  { selected := if items.isEmpty then none else some 0, items := items }

/-- `<StatefulList as Scrollable>::scroll_down(increment)`: cycles back to
the beginning when the end is reached.  `i >= len.saturating_sub(increment)`
is `length - increment ≤ i` on `Nat`. -/
def StatefulList.scroll_down {T : Type} (s : StatefulList T) (increment : Nat) :
    StatefulList T :=
  let i :=
    match s.selected with
    | some i => if s.items.length - increment ≤ i then 0 else i + increment
    | none => 0
  { s with selected := some i }

/-- `<StatefulList as Scrollable>::scroll_up(decrement)`: cycles back to the
end when the beginning is reached. -/
def StatefulList.scroll_up {T : Type} (s : StatefulList T) (decrement : Nat) :
    StatefulList T :=
  let i :=
    match s.selected with
    | some i => if i = 0 then s.items.length - decrement else i - decrement
    | none => 0
  { s with selected := some i }

/-! ## The `Scrollable` trait's default `handle_scroll` (lines 14-26) -/

/-- The trait's default method, parameterised by the implementor's two
required methods: resolve the magnitude (`10` if `page` else `1`) and
dispatch on the direction. -/
def handleScroll {σ : Type} (scrollUp scrollDown : σ → Nat → σ)
    (s : σ) (up page : Bool) : σ :=
  let inc_or_dec := if page then 10 else 1
  if up then scrollUp s inc_or_dec else scrollDown s inc_or_dec

/-- `handle_scroll` as inherited by `StatefulList`. -/
def StatefulList.handle_scroll {T : Type} (s : StatefulList T)
    (up page : Bool) : StatefulList T :=
  handleScroll StatefulList.scroll_up StatefulList.scroll_down s up page

/-! ## StatefulTable (src/app/models.rs lines 80-151) -/

/-- `StatefulTable<T>`: ratatui `TableState` (observably its
`selected : Option<usize>`) plus `items : Vec<T>`. -/
structure StatefulTable (T : Type) where
  selected : Option Nat
  items : List T
deriving Repr, DecidableEq

/-- `StatefulTable::new()`. -/
def StatefulTable.new (T : Type) : StatefulTable T :=
  { selected := none, items := [] }

/-- `StatefulTable::set_items(items)`: installs the new items; when they are
non-empty, recomputes the selection with
`map_or(0, |i| if i > 0 && i < item_len { i } else if i >= item_len
{ item_len - 1 } else { 0 })`.  When the new items are empty the `if` body
is skipped entirely and the previous selection is left in place. -/
def StatefulTable.set_items {T : Type} (t : StatefulTable T) (items : List T) :
    StatefulTable T :=
  let item_len := items.length
  let t := { t with items := items }
  if t.items.isEmpty then t
  else
    let i :=
      match t.selected with
      | none => 0
      | some i =>
        if 0 < i ∧ i < item_len then i
        else if item_len ≤ i then item_len - 1
        else 0
    { t with selected := some i }

/-- `StatefulTable::with_items(items)`: `new()`, select `Some(0)` when
non-empty, then `set_items(items)`. -/
def StatefulTable.with_items {T : Type} (items : List T) : StatefulTable T :=
  let t := StatefulTable.new T
  let t := if items.isEmpty then t else { t with selected := some 0 }
  t.set_items items

/-- `<StatefulTable as Scrollable>::scroll_down(increment)`: no-op when
unselected; otherwise advance to `i + increment` when still in range, else
clamp to `len.saturating_sub(1)`.  The source computes `(i + increment)` as
an unchecked `usize` sum: release builds wrap it at `2^64`, modelled here as
`% USIZE` (debug builds panic instead — see `scroll_down_checked`). -/
def StatefulTable.scroll_down {T : Type} (t : StatefulTable T)
    (increment : Nat) : StatefulTable T :=
  match t.selected with
  | some i =>
    if (i + increment) % USIZE < t.items.length then
      { t with selected := some ((i + increment) % USIZE) }
    else
      { t with selected := some (t.items.length - 1) }
  | none => t

/-- `<StatefulTable as Scrollable>::scroll_up(decrement)`: no-op when
unselected or already at `0`; otherwise `i.saturating_sub(decrement)`. -/
def StatefulTable.scroll_up {T : Type} (t : StatefulTable T)
    (decrement : Nat) : StatefulTable T :=
  match t.selected with
  | some i =>
    if i ≠ 0 then { t with selected := some (i - decrement) } else t
  | none => t

/-- `handle_scroll` as inherited by `StatefulTable`. -/
def StatefulTable.handle_scroll {T : Type} (t : StatefulTable T)
    (up page : Bool) : StatefulTable T :=
  handleScroll StatefulTable.scroll_up StatefulTable.scroll_down t up page

/-! ## ScrollableTxt (src/app/models.rs lines 188-220) -/

/-- `ScrollableTxt`: lines of text plus a `u16` viewport offset.  Text is
modelled as `List Char`, a line list as `List (List Char)`. -/
structure ScrollableTxt where
  items : List (List Char)
  offset : Nat
deriving Repr, DecidableEq

/-- `ScrollableTxt::new(item)`: split the input on `'\n'`.
Rust's `str::split('\n')` keeps empty pieces and yields one piece for the
empty string, exactly like `List.splitOn`. -/
def ScrollableTxt.new (item : List Char) : ScrollableTxt :=
  { items := item.splitOn '\n', offset := 0 }

/-- `ScrollableTxt::get_txt()`: `self.items.join("\n")`. -/
def ScrollableTxt.get_txt (s : ScrollableTxt) : List Char :=
  List.intercalate ['\n'] s.items

/-- `<ScrollableTxt as Scrollable>::scroll_down(increment)`:
`if self.offset < self.items.len().saturating_sub(increment + 2) as u16
{ self.offset += increment as u16 }`.  `increment + 2` is an unchecked
`usize` sum: release builds wrap it at `2^64`, modelled as `% USIZE` (debug
builds panic — see `scroll_down_checked`); the two `as u16` casts are
`% U16` and the release-build `+=` wraps at `U16`. -/
def ScrollableTxt.scroll_down (s : ScrollableTxt) (increment : Nat) :
    ScrollableTxt :=
  if s.offset < (s.items.length - (increment + 2) % USIZE) % U16 then
    { s with offset := (s.offset + increment % U16) % U16 }
  else s

/-- `<ScrollableTxt as Scrollable>::scroll_up(decrement)`:
`if self.offset > 0 { self.offset = self.offset.saturating_sub(decrement as u16) }`. -/
def ScrollableTxt.scroll_up (s : ScrollableTxt) (decrement : Nat) :
    ScrollableTxt :=
  if 0 < s.offset then { s with offset := s.offset - decrement % U16 } else s

/-- `handle_scroll` as inherited by `ScrollableTxt`. -/
def ScrollableTxt.handle_scroll (s : ScrollableTxt) (up page : Bool) :
    ScrollableTxt :=
  handleScroll ScrollableTxt.scroll_up ScrollableTxt.scroll_down s up page

/-- Iterated `scroll_down 1`, for the guard-band scenario. -/
def scrollDownIter : Nat → ScrollableTxt → ScrollableTxt
  | 0, s => s
  | k + 1, s => scrollDownIter k (s.scroll_down 1)

/-! ## Debug-semantics (overflow-checked) variants of the scroll primitives.

Each mirrors its source function expression for expression, with every
unchecked machine addition routed through `checkedAdd`; `none` models the
overflow panic of a debug build.  The `scroll_up` implementations contain
only saturating subtractions, so their checked forms are total. -/

/-- Checked `StatefulList::scroll_down`: `i + increment` is evaluated only
in the branch where `i < len.saturating_sub(increment)`. -/
def StatefulList.scroll_down_checked {T : Type} (s : StatefulList T)
    (increment : Nat) : Option (StatefulList T) :=
  match s.selected with
  | some i =>
    if s.items.length - increment ≤ i then some { s with selected := some 0 }
    else
      (checkedAdd USIZE i increment).map fun j => { s with selected := some j }
  | none => some { s with selected := some 0 }

/-- Checked `StatefulList::scroll_up`: only saturating subtraction occurs. -/
def StatefulList.scroll_up_checked {T : Type} (s : StatefulList T)
    (decrement : Nat) : Option (StatefulList T) :=
  match s.selected with
  | some i =>
    if i = 0 then some { s with selected := some (s.items.length - decrement) }
    else some { s with selected := some (i - decrement) }
  | none => some { s with selected := some 0 }

/-- Checked `StatefulTable::scroll_down`: the source computes
`(i + increment)` before comparing it with `len`, so the addition is
checked first. -/
def StatefulTable.scroll_down_checked {T : Type} (t : StatefulTable T)
    (increment : Nat) : Option (StatefulTable T) :=
  match t.selected with
  | some i =>
    (checkedAdd USIZE i increment).map fun j =>
      if j < t.items.length then { t with selected := some j }
      else { t with selected := some (t.items.length - 1) }
  | none => some t

/-- Checked `StatefulTable::scroll_up`: only saturating subtraction occurs. -/
def StatefulTable.scroll_up_checked {T : Type} (t : StatefulTable T)
    (decrement : Nat) : Option (StatefulTable T) :=
  match t.selected with
  | some i =>
    if i ≠ 0 then some { t with selected := some (i - decrement) } else some t
  | none => some t

/-- Checked `ScrollableTxt::scroll_down`: `increment + 2` is an unchecked
`usize` addition and `self.offset += increment as u16` is an unchecked `u16`
addition. -/
def ScrollableTxt.scroll_down_checked (s : ScrollableTxt) (increment : Nat) :
    Option ScrollableTxt :=
  (checkedAdd USIZE increment 2).bind fun g =>
    if s.offset < (s.items.length - g) % U16 then
      (checkedAdd U16 s.offset (increment % U16)).map fun o =>
        { s with offset := o }
    else some s

/-- Checked `ScrollableTxt::scroll_up`: only saturating subtraction occurs. -/
def ScrollableTxt.scroll_up_checked (s : ScrollableTxt) (decrement : Nat) :
    Option ScrollableTxt :=
  if 0 < s.offset then some { s with offset := s.offset - decrement % U16 }
  else some s

/-! ## Reachability under construct / replace / scroll sequences -/

/-- States of a `StatefulList` produced by some sequence of construct
(`new` / `with_items`) and scroll (`scroll_up` / `scroll_down` /
`handle_scroll`) operations with positive magnitudes.  (Magnitude `0` must
be excluded: `scroll_up 0` on a list selected at `0` selects
`len.saturating_sub(0) = len`, which is out of bounds.) -/
inductive ListReach (T : Type) : StatefulList T → Prop
  | new : ListReach T (StatefulList.new T)
  | with_items (items : List T) : ListReach T (StatefulList.with_items items)
  | scroll_down (s : StatefulList T) (n : Nat) (hn : 0 < n) :
      ListReach T s → ListReach T (s.scroll_down n)
  | scroll_up (s : StatefulList T) (n : Nat) (hn : 0 < n) :
      ListReach T s → ListReach T (s.scroll_up n)
  | handle (s : StatefulList T) (up page : Bool) :
      ListReach T s → ListReach T (s.handle_scroll up page)

/-- States of a `StatefulTable` produced by some sequence of construct
(`new` / `with_items`), replace (`set_items`) and scroll (`scroll_up` /
`scroll_down` / `handle_scroll`) operations with positive magnitudes. -/
inductive TableReach (T : Type) : StatefulTable T → Prop
  | new : TableReach T (StatefulTable.new T)
  | with_items (items : List T) : TableReach T (StatefulTable.with_items items)
  | set_items (t : StatefulTable T) (items : List T) :
      TableReach T t → TableReach T (t.set_items items)
  | scroll_down (t : StatefulTable T) (n : Nat) (hn : 0 < n) :
      TableReach T t → TableReach T (t.scroll_down n)
  | scroll_up (t : StatefulTable T) (n : Nat) (hn : 0 < n) :
      TableReach T t → TableReach T (t.scroll_up n)
  | handle (t : StatefulTable T) (up page : Bool) :
      TableReach T t → TableReach T (t.handle_scroll up page)

/-- The bounds invariant that the reachable list/table states actually
satisfy: an unselected state has no items, and a non-empty state is always
selected at an in-range index.  (A state with empty items may carry a
`Some` selection.) -/
def SelBounds (sel : Option Nat) (len : Nat) : Prop :=
  (sel = none → len = 0) ∧ (0 < len → ∃ i, sel = some i ∧ i < len)

/-! ## Characterisation lemmas -/

lemma StatefulList.scroll_down_eq {T : Type} (s : StatefulList T) (n : Nat) :
    s.scroll_down n =
      { s with
        selected := some
          (match s.selected with
           | some i => if s.items.length - n ≤ i then 0 else i + n
           | none => 0) } := rfl

lemma StatefulList.scroll_up_eq {T : Type} (s : StatefulList T) (n : Nat) :
    s.scroll_up n =
      { s with
        selected := some
          (match s.selected with
           | some i => if i = 0 then s.items.length - n else i - n
           | none => 0) } := rfl

lemma list_handle_scroll_eq {T : Type} (s : StatefulList T)
    (up page : Bool) :
    s.handle_scroll up page =
      if up then s.scroll_up (if page then 10 else 1)
      else s.scroll_down (if page then 10 else 1) := by
  cases up <;> cases page <;> rfl

lemma table_handle_scroll_eq {T : Type} (t : StatefulTable T)
    (up page : Bool) :
    t.handle_scroll up page =
      if up then t.scroll_up (if page then 10 else 1)
      else t.scroll_down (if page then 10 else 1) := by
  cases up <;> cases page <;> rfl

lemma list_items_scroll_down {T : Type} (s : StatefulList T) (n : Nat) :
    (s.scroll_down n).items = s.items := rfl

lemma list_items_scroll_up {T : Type} (s : StatefulList T) (n : Nat) :
    (s.scroll_up n).items = s.items := rfl

lemma table_items_scroll_down {T : Type} (t : StatefulTable T)
    (n : Nat) : (t.scroll_down n).items = t.items := by
  obtain ⟨sel, items⟩ := t
  cases sel with
  | none => rfl
  | some i =>
    dsimp [StatefulTable.scroll_down]
    split <;> rfl

lemma table_items_scroll_up {T : Type} (t : StatefulTable T)
    (n : Nat) : (t.scroll_up n).items = t.items := by
  obtain ⟨sel, items⟩ := t
  cases sel with
  | none => rfl
  | some i =>
    dsimp [StatefulTable.scroll_up]
    split <;> rfl

lemma txt_items_scroll_down (s : ScrollableTxt) (n : Nat) :
    (s.scroll_down n).items = s.items := by
  unfold ScrollableTxt.scroll_down
  split <;> rfl

lemma txt_items_scroll_up (s : ScrollableTxt) (n : Nat) :
    (s.scroll_up n).items = s.items := by
  unfold ScrollableTxt.scroll_up
  split <;> rfl

/-! ## Preservation of `SelBounds` (positive magnitudes) -/

lemma selBounds_list_scroll_down {T : Type} (s : StatefulList T) (n : Nat)
    (h : SelBounds s.selected s.items.length) :
    SelBounds (s.scroll_down n).selected (s.scroll_down n).items.length := by
  obtain ⟨sel, items⟩ := s
  obtain ⟨h1, h2⟩ := h
  cases sel with
  | none =>
    have hlen : items.length = 0 := h1 rfl
    dsimp [StatefulList.scroll_down]
    exact ⟨fun hc => by simp at hc, fun hpos => absurd hpos (by omega)⟩
  | some i =>
    dsimp [StatefulList.scroll_down]
    refine ⟨fun hc => by simp at hc, fun hpos => ?_⟩
    obtain ⟨j, hj, hjlt⟩ := h2 hpos
    have hij : i = j := by simpa using hj
    subst hij
    have hjlt' : i < items.length := hjlt
    split
    · exact ⟨0, rfl, hpos⟩
    · next hin => exact ⟨i + n, rfl, by omega⟩

lemma selBounds_list_scroll_up {T : Type} (s : StatefulList T) (n : Nat)
    (hn : 0 < n) (h : SelBounds s.selected s.items.length) :
    SelBounds (s.scroll_up n).selected (s.scroll_up n).items.length := by
  obtain ⟨sel, items⟩ := s
  obtain ⟨h1, h2⟩ := h
  cases sel with
  | none =>
    have hlen : items.length = 0 := h1 rfl
    dsimp [StatefulList.scroll_up]
    exact ⟨fun hc => by simp at hc, fun hpos => absurd hpos (by omega)⟩
  | some i =>
    dsimp [StatefulList.scroll_up]
    refine ⟨fun hc => by simp at hc, fun hpos => ?_⟩
    obtain ⟨j, hj, hjlt⟩ := h2 hpos
    have hij : i = j := by simpa using hj
    subst hij
    have hjlt' : i < items.length := hjlt
    split
    · exact ⟨items.length - n, rfl, by omega⟩
    · next hne => exact ⟨i - n, rfl, by omega⟩

lemma selBounds_table_set_items {T : Type} (t : StatefulTable T)
    (items : List T) :
    SelBounds (t.set_items items).selected (t.set_items items).items.length := by
  obtain ⟨sel, olditems⟩ := t
  dsimp [StatefulTable.set_items]
  split
  · next hemp =>
    have hnil : items = [] := List.isEmpty_iff.1 hemp
    subst hnil
    exact ⟨fun _ => rfl,
      fun hpos => absurd (show 0 < ([] : List T).length from hpos) (by simp)⟩
  · next hemp =>
    have hne : items ≠ [] := by
      intro hnil
      exact hemp (List.isEmpty_iff.2 hnil)
    have hlen : 0 < items.length := List.length_pos.2 hne
    refine ⟨fun hc => by simp at hc, fun _ => ?_⟩
    cases sel with
    | none => exact ⟨0, rfl, hlen⟩
    | some i =>
      dsimp only
      split
      · next hin => exact ⟨i, rfl, hin.2⟩
      · split
        · next hge => exact ⟨items.length - 1, rfl, by omega⟩
        · next hlt => exact ⟨0, rfl, hlen⟩

lemma selBounds_table_scroll_down {T : Type} (t : StatefulTable T) (n : Nat)
    (h : SelBounds t.selected t.items.length) :
    SelBounds (t.scroll_down n).selected (t.scroll_down n).items.length := by
  obtain ⟨sel, items⟩ := t
  cases sel with
  | none => exact h
  | some i =>
    dsimp [StatefulTable.scroll_down]
    split
    · next hin =>
      exact ⟨fun hc => by simp at hc, fun _ => ⟨(i + n) % USIZE, rfl, hin⟩⟩
    · next hin =>
      refine ⟨fun hc => by simp at hc, fun hpos => ?_⟩
      have hpos' : 0 < items.length := hpos
      exact ⟨items.length - 1, rfl,
        show items.length - 1 < items.length by omega⟩

lemma selBounds_table_scroll_up {T : Type} (t : StatefulTable T) (n : Nat)
    (h : SelBounds t.selected t.items.length) :
    SelBounds (t.scroll_up n).selected (t.scroll_up n).items.length := by
  obtain ⟨sel, items⟩ := t
  obtain ⟨h1, h2⟩ := h
  cases sel with
  | none => exact ⟨h1, h2⟩
  | some i =>
    dsimp [StatefulTable.scroll_up]
    split
    · next hne =>
      refine ⟨fun hc => by simp at hc, fun hpos => ?_⟩
      have hpos' : 0 < items.length := hpos
      obtain ⟨j, hj, hjlt⟩ := h2 hpos'
      have hij : i = j := by simpa using hj
      subst hij
      have hjlt' : i < items.length := hjlt
      exact ⟨i - n, rfl, show i - n < items.length by omega⟩
    · exact ⟨h1, h2⟩

lemma selBounds_list_reach {T : Type} (s : StatefulList T)
    (hs : ListReach T s) : SelBounds s.selected s.items.length := by
  induction hs with
  | new => exact ⟨fun _ => rfl, fun hpos => by simp [StatefulList.new] at hpos⟩
  | with_items items =>
    by_cases hnil : items = []
    · subst hnil
      exact ⟨fun _ => rfl,
        fun hpos => absurd (show 0 < ([] : List T).length from hpos) (by simp)⟩
    · have hfalse : items.isEmpty = false := List.isEmpty_eq_false.2 hnil
      have hlen : 0 < items.length := List.length_pos.2 hnil
      refine ⟨fun hc => ?_, fun _ => ?_⟩
      · exfalso
        simp [StatefulList.with_items, hfalse] at hc
      · exact ⟨0, by simp [StatefulList.with_items, hfalse], hlen⟩
  | scroll_down s n hn _ ih => exact selBounds_list_scroll_down s n ih
  | scroll_up s n hn _ ih => exact selBounds_list_scroll_up s n hn ih
  | handle s up page _ ih =>
    rw [list_handle_scroll_eq]
    cases up
    · simpa using selBounds_list_scroll_down s (if page then 10 else 1) ih
    · have hpos : 0 < if page then 10 else 1 := by split <;> omega
      simpa using selBounds_list_scroll_up s (if page then 10 else 1) hpos ih

lemma selBounds_table_reach {T : Type} (t : StatefulTable T)
    (ht : TableReach T t) : SelBounds t.selected t.items.length := by
  induction ht with
  | new => exact ⟨fun _ => rfl, fun hpos => by simp [StatefulTable.new] at hpos⟩
  | with_items items => exact selBounds_table_set_items _ items
  | set_items t items _ _ => exact selBounds_table_set_items t items
  | scroll_down t n hn _ ih => exact selBounds_table_scroll_down t n ih
  | scroll_up t n hn _ ih => exact selBounds_table_scroll_up t n ih
  | handle t up page _ ih =>
    rw [table_handle_scroll_eq]
    cases up
    · simpa using selBounds_table_scroll_down t (if page then 10 else 1) ih
    · simpa using selBounds_table_scroll_up t (if page then 10 else 1) ih

/-! ## Claim C1 -/

/-- C1 (corrected).  The claimed biconditional "`selected` is `None` iff
`items` is empty" fails on the code (see the counterexample: scrolling an
empty list selects `Some(0)`), and magnitude-`0` list scrolls can push the
selection out of bounds.  What does hold, for every sequence of construct,
replace and positive-magnitude scroll operations on a `StatefulList` or a
`StatefulTable`: `selected = None` only if `items` is empty, and whenever
`items` is non-empty, `selected = Some(i)` with `0 ≤ i < len(items)`. -/
theorem claim1_bounds_invariant :
    (∀ (T : Type) (s : StatefulList T), ListReach T s →
      (s.selected = none → s.items.length = 0) ∧
      (0 < s.items.length →
        ∃ i, s.selected = some i ∧ i < s.items.length)) ∧
    (∀ (T : Type) (t : StatefulTable T), TableReach T t →
      (t.selected = none → t.items.length = 0) ∧
      (0 < t.items.length →
        ∃ i, t.selected = some i ∧ i < t.items.length)) :=
  ⟨fun _ s hs => selBounds_list_reach s hs,
   fun _ t ht => selBounds_table_reach t ht⟩

/-- Witness for C1: the invariant instantiated at concretely reachable
states. -/
theorem claim1_bounds_invariant_witness :
    (((StatefulList.with_items [10, 20, 30]).scroll_down 1).selected = none →
      ((StatefulList.with_items [10, 20, 30]).scroll_down 1).items.length = 0) ∧
    (0 < ((StatefulList.with_items [10, 20, 30]).scroll_down 1).items.length →
      ∃ i, ((StatefulList.with_items [10, 20, 30]).scroll_down 1).selected
            = some i ∧
        i < ((StatefulList.with_items [10, 20, 30]).scroll_down 1).items.length) := by
  exact claim1_bounds_invariant.1 Nat _
    (ListReach.scroll_down _ 1 (by decide) (ListReach.with_items _))

/-- Counterexample to C1 as stated: from the empty list constructed by
`new`, one `scroll_down(1)` (a construct/scroll sequence) produces a state
with empty `items` whose `selected` is `Some(0)`, not `None`. -/
theorem claim1_bounds_invariant_counterexample :
    ((StatefulList.new Unit).scroll_down 1).items = [] ∧
    ((StatefulList.new Unit).scroll_down 1).selected = some 0 := by
  exact ⟨rfl, rfl⟩

/-! ## Claim C2 -/

lemma set_items_index_eq (i len : Nat) :
    (if 0 < i ∧ i < len then i else if len ≤ i then len - 1 else 0)
      = (if i = 0 then 0 else if i < len then i else len - 1) := by
  split_ifs <;> omega

lemma StatefulTable.set_items_selected {T : Type} (t : StatefulTable T)
    (xs : List T) (hne : xs ≠ []) :
    (t.set_items xs).selected = some
      (match t.selected with
       | none => 0
       | some i =>
         if 0 < i ∧ i < xs.length then i
         else if xs.length ≤ i then xs.length - 1
         else 0) := by
  obtain ⟨sel, olditems⟩ := t
  have hfalse : xs.isEmpty = false := List.isEmpty_eq_false.2 hne
  dsimp [StatefulTable.set_items]
  rw [hfalse]
  simp

/-- C2 (corrected).  `set_items(new_items)` installs `new_items` and, when
they are non-empty, recomputes the selection exactly as claimed: previously
unselected selects `0`; `Some(i)` with `0 < i < new_len` keeps `i`;
`i ≥ new_len` clamps to `new_len − 1`; `i = 0` keeps `0`.  The claim's empty
case is wrong: when `new_items` is empty the code leaves the previous
selection in place instead of setting it to `None` (see the
counterexample).  The concrete 3→2→1-item scenario holds as claimed. -/
theorem claim2_set_items_replacement :
    (∀ (T : Type) (t : StatefulTable T) (xs : List T),
      (t.set_items xs).items = xs ∧
      (xs = [] → (t.set_items xs).selected = t.selected) ∧
      (xs ≠ [] → (t.set_items xs).selected = some
        (match t.selected with
         | none => 0
         | some i =>
           if i = 0 then 0
           else if i < xs.length then i
           else xs.length - 1))) ∧
    ((StatefulTable.with_items [0, 1, 2]).scroll_down 1).selected = some 1 ∧
    (((StatefulTable.with_items [0, 1, 2]).scroll_down 1).set_items
      [0, 1]).selected = some 1 ∧
    ((((StatefulTable.with_items [0, 1, 2]).scroll_down 1).set_items
      [0, 1]).set_items [0]).selected = some 0 := by
  refine ⟨fun T t xs => ⟨?_, ?_, ?_⟩, by decide, by decide, by decide⟩
  · obtain ⟨sel, olditems⟩ := t
    dsimp [StatefulTable.set_items]
    split <;> rfl
  · intro hnil
    subst hnil
    rfl
  · intro hne
    rw [StatefulTable.set_items_selected t xs hne]
    cases t.selected with
    | none => rfl
    | some i => exact congrArg some (set_items_index_eq i xs.length)

/-- Witness for C2: replacing the items of a table selected at `2` by a
single item clamps the selection to `0`. -/
theorem claim2_set_items_replacement_witness :
    ((StatefulTable.mk (some 2) [9, 9, 9]).set_items [5]).selected = some 0 := by
  have h :=
    (claim2_set_items_replacement.1 Nat ⟨some 2, [9, 9, 9]⟩ [5]).2.2 (by decide)
  exact h.trans (by decide)

/-- Counterexample to C2 as stated: replacing with an empty collection does
not make `selected` become `None` — starting from 3 items selected at `1`,
`set_items([])` leaves the stale selection `Some(1)` in place. -/
theorem claim2_set_items_replacement_counterexample :
    (((StatefulTable.with_items [0, 1, 2]).scroll_down 1).set_items
      ([] : List Nat)).items = [] ∧
    (((StatefulTable.with_items [0, 1, 2]).scroll_down 1).set_items
      ([] : List Nat)).selected = some 1 := by
  decide

/-! ## Claim C3 -/

/-- C3 (confirmed).  For a selected `StatefulList`, `scroll_down(n)` wraps
to `0` exactly on the branch `i ≥ L.saturating_sub(n)` and otherwise
advances to `i + n`; `scroll_up(n)` wraps to `L.saturating_sub(n)` exactly
on the branch `i = 0` and otherwise retreats to `i.saturating_sub(n)`.
(The claim's two "if and only if" sentences are read as the two-branch case
definitions they describe, stated here as full characterisations.) -/
theorem claim3_list_scroll_characterisation :
    ∀ (T : Type) (s : StatefulList T) (i n : Nat), s.selected = some i →
      (s.scroll_down n).selected =
        some (if s.items.length - n ≤ i then 0 else i + n) ∧
      (s.scroll_up n).selected =
        some (if i = 0 then s.items.length - n else i - n) := by
  intro T s i n hsel
  obtain ⟨sel, items⟩ := s
  have hs : sel = some i := hsel
  subst hs
  exact ⟨rfl, rfl⟩

/-- Witness for C3: a 3-item list selected at `1` scrolls down to `2` and
up to `0`. -/
theorem claim3_list_scroll_characterisation_witness :
    ((StatefulList.mk (some 1) [0, 1, 2]).scroll_down 1).selected = some 2 ∧
    ((StatefulList.mk (some 1) [0, 1, 2]).scroll_up 1).selected = some 0 := by
  have h := claim3_list_scroll_characterisation Nat ⟨some 1, [0, 1, 2]⟩ 1 1 rfl
  exact ⟨h.1.trans (by decide), h.2.trans (by decide)⟩

/-! ## Claim C4 -/

/-- C4 (corrected).  When the selection is `None`, the code does not route
the default `i = 0` through the wrap/advance arithmetic: both
`scroll_down(n)` and `scroll_up(n)` unconditionally select `Some(0)`
(`None => 0` in both matches).  The claimed behaviour ("selects `n`" /
"selects `len − n`") agrees with this only when `items` is empty — the only
`None` state reachable through the component's own operations — and fails
on a non-empty unselected list (see the counterexample). -/
theorem claim4_none_scroll (T : Type) (s : StatefulList T) (n : Nat)
    (h : s.selected = none) :
    (s.scroll_down n).selected = some 0 ∧
    (s.scroll_up n).selected = some 0 := by
  obtain ⟨sel, items⟩ := s
  have hs : sel = none := h
  subst hs
  exact ⟨rfl, rfl⟩

/-- Witness for C4: scrolling an unselected list by `5` selects `Some(0)`. -/
theorem claim4_none_scroll_witness :
    ((StatefulList.mk none ([0, 1, 2] : List Nat)).scroll_down 5).selected
      = some 0 ∧
    ((StatefulList.mk none ([0, 1, 2] : List Nat)).scroll_up 5).selected
      = some 0 :=
  claim4_none_scroll Nat ⟨none, [0, 1, 2]⟩ 5 rfl

/-- Counterexample to C4 as stated: on an unselected 3-item list,
`scroll_down(1)` should select `n = 1` by the claim (the wrap guard
`0 ≥ 3 − 1` is false) and `scroll_up(1)` should select `3 − 1 = 2`;
the code selects `Some(0)` in both cases. -/
theorem claim4_none_scroll_counterexample :
    ((StatefulList.mk none ([0, 1, 2] : List Nat)).scroll_down 1).selected
      ≠ some 1 ∧
    ¬ ((StatefulList.mk none ([0, 1, 2] : List Nat)).items.length - 1 ≤ 0) ∧
    ((StatefulList.mk none ([0, 1, 2] : List Nat)).scroll_up 1).selected
      ≠ some 2 := by
  decide

/-! ## Claim C5 -/

/-- C5 (corrected).  For a `StatefulTable` over a non-empty collection of
`L` items, and magnitudes `n` with `i + n < 2^64` (the source computes
`i + increment` as an unchecked `usize` sum, which wraps in release builds
and panics in debug builds for larger `n`): `scroll_down(n)` never produces
a selected index `≥ L`, selects `i + n` when `i + n < L` and otherwise
clamps to `L − 1`, so `scroll_down(n)` with `n ≥ 1` from `i = L − 1` stays
at `L − 1`; `scroll_up(n)` at `i = 0` is a no-op (the selection does not
become `None` and does not wrap) and otherwise selects
`i.saturating_sub(n)`; both operations are no-ops when the selection is
`None`.  The restriction to non-empty items is forced: a table can reach
empty `items` with a stale `Some` selection (via `set_items([])`), and
there `scroll_down` produces `Some(0)` with `0 ≥ L = 0` (see the
counterexample). -/
theorem claim5_table_clamp_no_wrap :
    ∀ (T : Type) (t : StatefulTable T) (n : Nat),
      (t.selected = none → t.scroll_down n = t ∧ t.scroll_up n = t) ∧
      (∀ i, t.selected = some i → 0 < t.items.length → i + n < USIZE →
        (t.scroll_down n).selected =
          some (if i + n < t.items.length then i + n
                else t.items.length - 1) ∧
        (∀ j, (t.scroll_down n).selected = some j → j < t.items.length) ∧
        (i = t.items.length - 1 → 1 ≤ n →
          (t.scroll_down n).selected = some (t.items.length - 1)) ∧
        (i = 0 → t.scroll_up n = t) ∧
        (i ≠ 0 → (t.scroll_up n).selected = some (i - n))) := by
  intro T t n
  obtain ⟨sel, items⟩ := t
  constructor
  · intro h
    have hs : sel = none := h
    subst hs
    exact ⟨rfl, rfl⟩
  · intro i hsel hpos hUS
    have hs : sel = some i := hsel
    subst hs
    have hpos' : 0 < items.length := hpos
    have hmod : (i + n) % USIZE = i + n := Nat.mod_eq_of_lt hUS
    refine ⟨?_, ?_, ?_, ?_, ?_⟩
    · by_cases hc : i + n < items.length <;>
        simp [StatefulTable.scroll_down, hmod, hc]
    · intro j hj
      dsimp [StatefulTable.scroll_down] at hj
      rw [hmod] at hj
      by_cases hc : i + n < items.length
      · rw [if_pos hc] at hj
        have hji : i + n = j := by simpa using hj
        show j < items.length
        omega
      · rw [if_neg hc] at hj
        have hji : items.length - 1 = j := by simpa using hj
        show j < items.length
        omega
    · intro hlast hn
      have hlast' : i = items.length - 1 := hlast
      have hc : ¬ (i + n < items.length) := by omega
      simp [StatefulTable.scroll_down, hmod, hc]
    · intro h0
      subst h0
      simp [StatefulTable.scroll_up]
    · intro hne0
      simp [StatefulTable.scroll_up, hne0]

/-- Witness for C5: on a 3-item table selected at the last row, a page-size
`scroll_down(10)` stays at the last row, and `scroll_up(1)` at row `0` is a
no-op. -/
theorem claim5_table_clamp_no_wrap_witness :
    ((StatefulTable.mk (some 2) [0, 1, 2]).scroll_down 10).selected
      = some 2 ∧
    (StatefulTable.mk (some 0) ([0, 1, 2] : List Nat)).scroll_up 1
      = StatefulTable.mk (some 0) [0, 1, 2] := by
  constructor
  · have h :=
      ((claim5_table_clamp_no_wrap Nat ⟨some 2, [0, 1, 2]⟩ 10).2 2 rfl
        (by decide) (by decide)).1
    exact h.trans (by decide)
  · exact ((claim5_table_clamp_no_wrap Nat ⟨some 0, [0, 1, 2]⟩ 1).2 0 rfl
      (by decide) (by decide)).2.2.2.1 rfl

/-- Counterexample to C5 as stated: a table can reach empty `items` with a
stale selection (`with_items([x])` then `set_items([])`); there
`scroll_down(1)` produces `Some(0)`, an index `≥ L = 0` — so without the
non-emptiness hypothesis "`scroll_down` never produces an index `≥ L`"
is false. -/
theorem claim5_table_clamp_no_wrap_counterexample :
    (((StatefulTable.with_items [7]).set_items ([] : List Nat)).scroll_down
      1).selected = some 0 ∧
    (((StatefulTable.with_items [7]).set_items ([] : List Nat)).scroll_down
      1).items.length = 0 := by
  decide

/-! ## Claim C6 -/

/-- C6 (confirmed).  The trait's default `handle_scroll(up, page)` resolves
the magnitude to `10` when `page` is set and `1` otherwise, then dispatches
to `scroll_up` on `up` and `scroll_down` otherwise — stated for every
implementor (`handleScroll` is parametric in the component and its two
required methods).  The three end-to-end list scenarios follow: page-down
from `0` on 3 items wraps to `0`; line-down from `2` wraps to `0`;
line-up from `0` wraps to `2`. -/
theorem claim6_handle_scroll_dispatch :
    (∀ (σ : Type) (su sd : σ → Nat → σ) (s : σ),
      handleScroll su sd s true true = su s 10 ∧
      handleScroll su sd s true false = su s 1 ∧
      handleScroll su sd s false true = sd s 10 ∧
      handleScroll su sd s false false = sd s 1) ∧
    ((StatefulList.mk (some 0) [0, 1, 2]).handle_scroll false true).selected
      = some 0 ∧
    ((StatefulList.mk (some 2) [0, 1, 2]).handle_scroll false false).selected
      = some 0 ∧
    ((StatefulList.mk (some 0) [0, 1, 2]).handle_scroll true false).selected
      = some 2 := by
  exact ⟨fun σ su sd s => ⟨rfl, rfl, rfl, rfl⟩, by decide, by decide,
    by decide⟩

/-! ## Claim C10 -/

/-- C10 (confirmed).  Every `scroll_down(n)` / `scroll_up(n)` on a
`StatefulList` ends in `state.select(Some(i))` for some `i`, for every
magnitude and prior state; in particular scrolling the empty, unselected
list constructed by `new` selects `Some(0)`. -/
theorem claim10_list_scroll_always_selects :
    ∀ (T : Type) (s : StatefulList T) (n : Nat),
      (∃ i, (s.scroll_down n).selected = some i) ∧
      (∃ i, (s.scroll_up n).selected = some i) ∧
      ((StatefulList.new T).scroll_down n).selected = some 0 ∧
      ((StatefulList.new T).scroll_up n).selected = some 0 := by
  intro T s n
  obtain ⟨sel, items⟩ := s
  refine ⟨?_, ?_, rfl, rfl⟩
  · cases sel
    · exact ⟨0, rfl⟩
    · exact ⟨_, rfl⟩
  · cases sel
    · exact ⟨0, rfl⟩
    · exact ⟨_, rfl⟩

/-! ## Claim C7 -/

lemma scrollDownIter_ten_lines (o k : Nat) (h : o ≤ 7) :
    (scrollDownIter k (ScrollableTxt.mk (List.replicate 10 []) o)).offset
      = min (o + k) 7 := by
  induction k generalizing o with
  | zero =>
    rw [scrollDownIter]
    dsimp only
    omega
  | succ k ih =>
    rw [scrollDownIter]
    by_cases hc : o < 7
    · have hstep :
          (ScrollableTxt.mk (List.replicate 10 ([] : List Char)) o).scroll_down
            1 = ScrollableTxt.mk (List.replicate 10 []) (o + 1) := by
        interval_cases o <;> decide
      rw [hstep, ih (o + 1) (by omega)]
      omega
    · have ho : o = 7 := by omega
      subst ho
      have hstep :
          (ScrollableTxt.mk (List.replicate 10 ([] : List Char)) 7).scroll_down
            1 = ScrollableTxt.mk (List.replicate 10 []) 7 := by decide
      rw [hstep, ih 7 (by omega)]
      omega

/-- C7 (corrected).  What holds of `ScrollableTxt`: (1) when
`len(lines) < n + 2` and `n + 2 < 2^64` the guard is never satisfied and
`scroll_down(n)` is a no-op (the source computes `increment + 2` as an
unchecked `usize` sum, which wraps in release builds and panics in debug
builds for larger `n`); (2) the claimed guard characterisation
`offset' = offset + n` iff `offset < len(lines) − (n + 2)` holds only below
the `u16` width — the source truncates the guard value with `as u16` and
adds with wrapping `u16` arithmetic, so the hypotheses `n < 2^16`,
`len − (n + 2) < 2^16`, `offset + n < 2^16` are required; (3) `scroll_up(n)`
decreases the offset by `n` saturating at `0`, for `n < 2^16`
(the source subtracts `decrement as u16`); (4) on a 10-line text, repeated
`scroll_down(1)` advances the offset to exactly `min k 7`, i.e. up to and
including `7` and then stops; (5) `scroll_up(6)` from offset `7` reaches
`1`, not `0` as claimed (the repository's test reaches `0` via
`scroll_up(1)` then `scroll_up(6)`). -/
theorem claim7_scrollable_txt_guard :
    (∀ (s : ScrollableTxt) (n : Nat), n + 2 < USIZE →
      s.items.length < n + 2 → s.scroll_down n = s) ∧
    (∀ (s : ScrollableTxt) (n : Nat), n < U16 →
      s.items.length - (n + 2) < U16 → s.offset + n < U16 →
      (s.scroll_down n).offset =
        if s.offset < s.items.length - (n + 2) then s.offset + n
        else s.offset) ∧
    (∀ (s : ScrollableTxt) (n : Nat), n < U16 →
      (s.scroll_up n).offset = s.offset - n) ∧
    (∀ k : Nat,
      (scrollDownIter k (ScrollableTxt.mk (List.replicate 10 []) 0)).offset
        = min k 7) ∧
    ((ScrollableTxt.mk (List.replicate 10 ([] : List Char)) 7).scroll_up
      6).offset = 1 := by
  refine ⟨?_, ?_, ?_, ?_, by decide⟩
  · intro s n hUS h
    dsimp [ScrollableTxt.scroll_down]
    rw [Nat.mod_eq_of_lt hUS]
    have hz : s.items.length - (n + 2) = 0 := by omega
    rw [hz]
    simp
  · intro s n hn hlen hsum
    have hUS : n + 2 < USIZE := by
      have e1 : U16 = 65536 := by decide
      have e2 : USIZE = 18446744073709551616 := by decide
      omega
    dsimp [ScrollableTxt.scroll_down]
    rw [Nat.mod_eq_of_lt hUS, Nat.mod_eq_of_lt hn, Nat.mod_eq_of_lt hlen]
    by_cases hc : s.offset < s.items.length - (n + 2)
    · rw [if_pos hc, if_pos hc]
      dsimp only
      exact Nat.mod_eq_of_lt hsum
    · rw [if_neg hc, if_neg hc]
  · intro s n hn
    dsimp [ScrollableTxt.scroll_up]
    rw [Nat.mod_eq_of_lt hn]
    by_cases hc : 0 < s.offset
    · rw [if_pos hc]
    · rw [if_neg hc]
      omega
  · intro k
    have h := scrollDownIter_ten_lines 0 k (by omega)
    simpa using h

/-- Witness for C7: on a 10-line text at offset `0`, `scroll_down(1)`
advances the offset to `1`. -/
theorem claim7_scrollable_txt_guard_witness :
    ((ScrollableTxt.mk (List.replicate 10 ([] : List Char)) 0).scroll_down
      1).offset = 1 := by
  have h := claim7_scrollable_txt_guard.2.1
    (ScrollableTxt.mk (List.replicate 10 ([] : List Char)) 0) 1
    (by decide) (by decide) (by decide)
  exact h.trans (by decide)

/-- Counterexample to C7 as stated: a text of 10 lines, scrolled down to
offset `7` by the component's own operations, is brought to offset `1` by
`scroll_up(6)` — not to `0` as the claim's scenario demands. -/
theorem claim7_scrollable_txt_guard_counterexample :
    ((scrollDownIter 7 (ScrollableTxt.new (List.replicate 9 '\n'))).scroll_up
      6).offset = 1 ∧
    ((scrollDownIter 7 (ScrollableTxt.new (List.replicate 9 '\n'))).scroll_up
      6).offset ≠ 0 := by
  decide

/-! ## Claim C8 -/

/-- C8 (confirmed).  Splitting on `'\n'` at construction and rejoining with
`'\n'` in `get_txt` is a lossless round trip: for every input
`(ScrollableTxt::new(x)).get_txt() = x`. -/
theorem claim8_round_trip :
    ∀ x : List Char, (ScrollableTxt.new x).get_txt = x := by
  intro x
  dsimp [ScrollableTxt.new, ScrollableTxt.get_txt]
  exact List.intercalate_splitOn x '\n'

/-! ## Claim C9 -/

/-- C9 (corrected).  Every `scroll_up(n)` is free of error conditions for
every state and magnitude (it performs only saturating subtraction: its
debug-checked form always returns `some` and agrees with the operation),
and no scroll operation mutates anything beyond the selection/offset field
(`items`/lines are preserved).  But "every index/offset computation
saturates rather than overflowing" is false of `scroll_down`: the list's
`i + increment` is guarded (it needs only `len < 2^64`, automatic for a
Rust `Vec`), while the table's `(i + increment)` and the text's
`increment + 2` and `offset += increment as u16` are unchecked machine
additions, error-free only under the overflow-freedom hypotheses below
(satisfied by the magnitudes `1` and `10` that `handle_scroll` issues);
see the counterexample. -/
theorem claim9_scroll_safety :
    (∀ (T : Type) (s : StatefulList T) (n : Nat),
      s.scroll_up_checked n = some (s.scroll_up n) ∧
      (s.scroll_up n).items = s.items ∧ (s.scroll_down n).items = s.items) ∧
    (∀ (T : Type) (t : StatefulTable T) (n : Nat),
      t.scroll_up_checked n = some (t.scroll_up n) ∧
      (t.scroll_up n).items = t.items ∧ (t.scroll_down n).items = t.items) ∧
    (∀ (s : ScrollableTxt) (n : Nat),
      s.scroll_up_checked n = some (s.scroll_up n) ∧
      (s.scroll_up n).items = s.items ∧ (s.scroll_down n).items = s.items) ∧
    (∀ (T : Type) (s : StatefulList T) (n : Nat), s.items.length < USIZE →
      s.scroll_down_checked n = some (s.scroll_down n)) ∧
    (∀ (T : Type) (t : StatefulTable T) (n : Nat),
      (∀ i, t.selected = some i → i + n < USIZE) →
      t.scroll_down_checked n = some (t.scroll_down n)) ∧
    (∀ (s : ScrollableTxt) (n : Nat), n + 2 < USIZE →
      s.offset + n % U16 < U16 →
      s.scroll_down_checked n = some (s.scroll_down n)) := by
  refine ⟨?_, ?_, ?_, ?_, ?_, ?_⟩
  · intro T s n
    refine ⟨?_, list_items_scroll_up s n,
      list_items_scroll_down s n⟩
    obtain ⟨sel, items⟩ := s
    cases sel with
    | none => rfl
    | some i =>
      by_cases h0 : i = 0 <;>
        simp [StatefulList.scroll_up_checked, StatefulList.scroll_up, h0]
  · intro T t n
    refine ⟨?_, table_items_scroll_up t n,
      table_items_scroll_down t n⟩
    obtain ⟨sel, items⟩ := t
    cases sel with
    | none => rfl
    | some i =>
      by_cases h0 : i ≠ 0 <;>
        simp [StatefulTable.scroll_up_checked, StatefulTable.scroll_up, h0]
  · intro s n
    refine ⟨?_, txt_items_scroll_up s n,
      txt_items_scroll_down s n⟩
    by_cases hc : 0 < s.offset <;>
      simp [ScrollableTxt.scroll_up_checked, ScrollableTxt.scroll_up, hc]
  · intro T s n hlen
    obtain ⟨sel, items⟩ := s
    have hlen' : items.length < USIZE := hlen
    cases sel with
    | none => rfl
    | some i =>
      by_cases hc : items.length - n ≤ i
      · simp [StatefulList.scroll_down_checked, StatefulList.scroll_down, hc]
      · have hadd : i + n < USIZE := by omega
        simp [StatefulList.scroll_down_checked, StatefulList.scroll_down,
          checkedAdd, hc, hadd]
  · intro T t n h
    obtain ⟨sel, items⟩ := t
    cases sel with
    | none => rfl
    | some i =>
      have hadd : i + n < USIZE := h i rfl
      by_cases hc : i + n < items.length <;>
        simp [StatefulTable.scroll_down_checked, StatefulTable.scroll_down,
          checkedAdd, hadd, Nat.mod_eq_of_lt hadd, hc]
  · intro s n h2 hsum
    by_cases hc : s.offset < (s.items.length - (n + 2)) % U16
    · simp [ScrollableTxt.scroll_down_checked, ScrollableTxt.scroll_down,
        checkedAdd, h2, Nat.mod_eq_of_lt h2, hc, hsum, Nat.mod_eq_of_lt hsum]
    · simp [ScrollableTxt.scroll_down_checked, ScrollableTxt.scroll_down,
        checkedAdd, h2, Nat.mod_eq_of_lt h2, hc]

/-- Witness for C9: a line-sized and a page-sized table scroll are
overflow-free and agree with the release-semantics operation. -/
theorem claim9_scroll_safety_witness :
    (StatefulTable.mk (some 0) ([5, 6, 7] : List Nat)).scroll_down_checked 10
      = some ((StatefulTable.mk (some 0) [5, 6, 7]).scroll_down 10) := by
  refine claim9_scroll_safety.2.2.2.2.1 Nat ⟨some 0, [5, 6, 7]⟩ 10 ?_
  intro i hi
  have h0 : 0 = i := by simpa using hi
  subst h0
  decide

/-- Counterexample to C9 as stated: the table's `scroll_down` computes the
unchecked `usize` sum `i + increment`; at selection `1` with magnitude
`2^64 − 1` it exceeds the machine width (a debug-build panic, modelled as
`none`), rather than saturating. -/
theorem claim9_scroll_safety_counterexample :
    (StatefulTable.mk (some 1) ([8, 9] : List Nat)).scroll_down_checked
      (USIZE - 1) = none := by
  have h : ¬ (1 + (USIZE - 1) < USIZE) := by
    have hpos : 0 < USIZE := by decide
    omega
  simp [StatefulTable.scroll_down_checked, checkedAdd, h]

end JwtUi
